import Mathlib

/-!
Shallow embedding of `src/result.py` (the `pyresult` repository).

The module defines a two-variant result wrapper: a base class `Result`
(class attributes `value = ""`, `type = None`), subclasses `OK` and
`ERROR` whose `__init__` stores the wrapped value and its Python type,
free functions `Ok`, `Error`, `unwrap`, `is_ok`, `is_error`, and a
dynamic error-kind factory `to_error`.

Python values that can be wrapped are modelled by `PyVal`; the exact
runtime class of a `Result`-family instance by `PyClass` (the source
dispatches with `type(x) == OK` / `type(x) == ERROR`, an *exact* type
comparison, so the exact class — including a bare `Result` instance and
proper subclasses of `OK` — matters and is part of the state).
`unwrap`, which raises `Exception(f"Unwrapping error : {value}")` on an
`ERROR` instance, is embedded as a function into `Except String PyVal`:
`Except.error msg` is the raised exception carrying message `msg`.
Python's `type(name, bases, dict)` call inside `to_error` allocates a
fresh type object on every call; that allocation identity is made
explicit as a `typeId : Nat` argument supplied fresh by the runtime.
-/

/-- Python values that may be wrapped in a result modal: a string, an
integer, or any other object given by its class name and its `str`
rendering. -/
inductive PyVal where
  | vstr (s : String)
  | vint (n : Int)
  | vobj (cls : String) (rendered : String)
  deriving DecidableEq

/-- Python `str(v)` for a wrapped value, as used by the f-strings in
`OK.__repr__`, `ERROR.__repr__`, `Result.__repr__` and `unwrap`. -/
def pyStr : PyVal → String
  | .vstr s => s
  | .vint n => toString n
  | .vobj _ rendered => rendered

/-- Python `type(v)` for a wrapped value, by class name, as stored into
the `type` attribute by `OK.__init__` and `ERROR.__init__`. -/
def pyTypeName : PyVal → String
  | .vstr _ => "str"
  | .vint _ => "int"
  | .vobj cls _ => cls

/-- Exact runtime class of an instance of the `Result` family: the base
class itself, `OK`, `ERROR`, or a proper subclass of `OK` (named by the
string argument) that inherits `OK`'s methods. -/
inductive PyClass where
  | resultClass
  | okClass
  | errorClass
  | okSubclass (sub : String)
  deriving DecidableEq

/-- An instance of the `Result` class family: its exact runtime class,
its `value` attribute and its `type` attribute (`none` is Python's
`None`, the class-level default). -/
structure Result where
  cls : PyClass
  value : PyVal
  type : Option String
  deriving DecidableEq

/-- Models `Result()`, a bare instance of the base class: `value` and
`type` keep the class-level defaults `""` and `None`. -/
def Result.bare : Result :=
  ⟨PyClass.resultClass, PyVal.vstr "", none⟩

/-- Models `OK(value)`: `OK.__init__` stores `value` and `type(value)`. -/
def OK.init (value : PyVal) : Result :=
  ⟨PyClass.okClass, value, some (pyTypeName value)⟩

/-- Models `ERROR(value)`: `ERROR.__init__` stores `value` and
`type(value)`. -/
def ERROR.init (value : PyVal) : Result :=
  ⟨PyClass.errorClass, value, some (pyTypeName value)⟩

/-- Models instantiating a proper subclass of `OK` (declared as
`class sub(OK): pass`) that inherits `OK.__init__`. -/
def OKSub.init (sub : String) (value : PyVal) : Result :=
  ⟨PyClass.okSubclass sub, value, some (pyTypeName value)⟩

/-- Free function `Ok(value)`: wraps the value in the ok modal. -/
def Ok (value : PyVal) : Result := OK.init value

/-- Free function `Error(value)`: wraps the value in the error modal. -/
def Error (value : PyVal) : Result := ERROR.init value

/-- Dynamic dispatch of `repr(r)`: `OK.__repr__` is
`f"Ok({self.value})"`, `ERROR.__repr__` is `f"Error({self.value})"`,
`Result.__repr__` is `f"Result<{self.value}>"`; a proper subclass of
`OK` inherits `OK.__repr__`. -/
def Result.repr (r : Result) : String :=
  match r.cls with
  | PyClass.okClass => "Ok(" ++ pyStr r.value ++ ")"
  | PyClass.errorClass => "Error(" ++ pyStr r.value ++ ")"
  | PyClass.okSubclass _ => "Ok(" ++ pyStr r.value ++ ")"
  | PyClass.resultClass => "Result<" ++ pyStr r.value ++ ">"

/-- Dynamic dispatch of `str(r)`: each `__str__` in the family returns
`self.__repr__()`. -/
def Result.str (r : Result) : String := r.repr

/-- Method `Result.match(self, ok, error)`: `if type(self) == OK:
return ok(self.value) else: return error(self.value)` — exact runtime
type comparison with the class `OK`. -/
def Result.«match» {R : Type} (r : Result) (ok error : PyVal → R) : R :=
  if r.cls = PyClass.okClass then ok r.value else error r.value

/-- Function `unwrap(value)`: asserts `type(value) != ERROR` (exact
comparison) and raises `Exception(f"Unwrapping error : {value}")` when
the assertion fails; otherwise returns `value.value`. -/
def unwrap (r : Result) : Except String PyVal :=
  if r.cls = PyClass.errorClass then
    Except.error ("Unwrapping error : " ++ r.str)
  else
    Except.ok r.value

/-- Function `is_error(value)`: `type(value) == ERROR` (exact). -/
def is_error (r : Result) : Bool :=
  decide (r.cls = PyClass.errorClass)

/-- Function `is_ok(value)`: `type(value) == OK` (exact). -/
def is_ok (r : Result) : Bool :=
  decide (r.cls = PyClass.okClass)

/-- Models the `ErrorType` base class: its `__str__` returns the empty
string. -/
def ErrorType.strDefault : String := ""

/-- A type object produced by `to_error`: the `name` class attribute,
the string its installed `__repr__` lambda returns on any instance, the
list of base classes, and the allocation identity of the `type(...)`
call that created it. -/
structure ErrorKindType where
  name : String
  reprLambda : String
  bases : List String
  typeId : Nat
  deriving DecidableEq

/-- Function `to_error(name, explanation)`: returns
`type(name, (ErrorType,), {"__repr__": lambda self: f"{name}, {explanation}", "__str__": ..., "name": name})`.
The `typeId` argument records the fresh identity Python's `type` call
allocates; the runtime supplies a value distinct from every earlier
call's. -/
def to_error (typeId : Nat) (name explanation : String) : ErrorKindType :=
  ⟨name, name ++ ", " ++ explanation, ["ErrorType"], typeId⟩

/-- An instance of a type produced by `to_error` (e.g. `X()`). -/
structure ErrorKindInst where
  kind : ErrorKindType

/-- Models `X()` for a produced type `X`. -/
def ErrorKindType.new (k : ErrorKindType) : ErrorKindInst := ⟨k⟩

/-- Models `repr(x)` on an instance of a produced type: the installed
`__repr__` lambda returns `f"{name}, {explanation}"`. -/
def ErrorKindInst.repr (i : ErrorKindInst) : String := i.kind.reprLambda

/-- Models `str(x)` on an instance of a produced type: the installed
`__str__` calls `self.__repr__()`. -/
def ErrorKindInst.str (i : ErrorKindInst) : String := i.repr

/-- Models `x.name` on an instance of a produced type: the attribute
lookup falls back to the `name` class attribute. -/
def ErrorKindInst.nameAttr (i : ErrorKindInst) : String := i.kind.name

/-- C1: for every value `v`, `unwrap(Ok(v))` returns exactly `v`. -/
theorem C1_unwrap_Ok (v : PyVal) : unwrap (Ok v) = Except.ok v := rfl

/-- C2: for every error payload `e`, `unwrap(Error(e))` does not return a
value but raises an exception whose message embeds the string rendering
of the failure outcome. -/
theorem C2_unwrap_Error (e : PyVal) :
    (∀ v, unwrap (Error e) ≠ Except.ok v) ∧
    unwrap (Error e) =
      Except.error ("Unwrapping error : " ++ Result.str (Error e)) ∧
    (Result.str (Error e)).data <:+:
      ("Unwrapping error : " ++ Result.str (Error e)).data := by
  refine ⟨fun v h => ?_, rfl, ?_⟩
  · simp [unwrap, Error, ERROR.init] at h
  · exact ⟨"Unwrapping error : ".data, [], by simp [String.data_append]⟩

/-- C3: `is_ok(Ok(v))` is true and `is_error(Ok(v))` is false;
`is_error(Error(e))` is true and `is_ok(Error(e))` is false. -/
theorem C3_variant_predicates (v e : PyVal) :
    is_ok (Ok v) = true ∧ is_error (Ok v) = false ∧
    is_error (Error e) = true ∧ is_ok (Error e) = false :=
  ⟨rfl, rfl, rfl, rfl⟩

/-- C4: `match(Ok(v), f, g) = f(v)` and `match(Error(e), f, g) = g(e)`;
exactly one handler matters: the result on `Ok(v)` is independent of the
error handler and the result on `Error(e)` is independent of the ok
handler. -/
theorem C4_match_dispatch {R : Type} (v e : PyVal) (f g : PyVal → R) :
    Result.«match» (Ok v) f g = f v ∧
    Result.«match» (Error e) f g = g e ∧
    (∀ g2 : PyVal → R, Result.«match» (Ok v) f g = Result.«match» (Ok v) f g2) ∧
    (∀ f2 : PyVal → R, Result.«match» (Error e) f g = Result.«match» (Error e) f2 g) :=
  ⟨rfl, rfl, fun _ => rfl, fun _ => rfl⟩

/-- C5 counterexample: a bare `Result` instance is reachable through the
public interface (the `Result` class is exported and callable with no
arguments) yet is neither variant — `is_ok` and `is_error` are both
false on it, refuting "never neither". -/
theorem C5_counterexample_bare_neither :
    is_ok Result.bare = false ∧ is_error Result.bare = false :=
  ⟨rfl, rfl⟩

/-- C5 (amended): every outcome built by the `Ok`/`Error` constructors
is exactly one of the two variants — never both, never neither — and its
variant tag is fixed at construction to the class `OK` resp. `ERROR`; no
operation of the module mutates an instance after construction. -/
theorem C5_constructed_exactly_one (v e : PyVal) :
    (is_ok (Ok v) = true ∧ is_error (Ok v) = false) ∧
    (is_ok (Error e) = false ∧ is_error (Error e) = true) ∧
    (Ok v).cls = PyClass.okClass ∧ (Error e).cls = PyClass.errorClass :=
  ⟨⟨rfl, rfl⟩, ⟨rfl, rfl⟩, rfl, rfl⟩

/-- C6: the success variant renders as the debug form `Ok(<value>)` (the
spec's Success form) and the failure variant as `Error(<error>)` (the
spec's Failure form), built from the contained value's own string
rendering, which each rendering contains as a substring. -/
theorem C6_repr_forms (v e : PyVal) :
    Result.repr (Ok v) = "Ok(" ++ pyStr v ++ ")" ∧
    Result.repr (Error e) = "Error(" ++ pyStr e ++ ")" ∧
    (pyStr v).data <:+: (Result.repr (Ok v)).data ∧
    (pyStr e).data <:+: (Result.repr (Error e)).data := by
  refine ⟨rfl, rfl, ⟨"Ok(".data, ")".data, ?_⟩, ⟨"Error(".data, ")".data, ?_⟩⟩ <;>
    simp [Result.repr, Ok, OK.init, Error, ERROR.init, String.data_append]

/-- C7: `to_error(name, explanation)` produces a type deriving
`ErrorType` whose `name` attribute equals `name` and whose instances
render to string as `"<name>, <explanation>"`; instances inherit the
`name` attribute. -/
theorem C7_to_error_spec (tid : Nat) (name explanation : String) :
    (to_error tid name explanation).name = name ∧
    "ErrorType" ∈ (to_error tid name explanation).bases ∧
    ErrorKindInst.str (ErrorKindType.new (to_error tid name explanation)) =
      name ++ ", " ++ explanation ∧
    ErrorKindInst.nameAttr (ErrorKindType.new (to_error tid name explanation)) = name := by
  refine ⟨rfl, ?_, rfl, rfl⟩
  simp [to_error]

/-- C8: `to_error` has no failure condition — every call, on any strings
(duplicates of earlier names included), yields a valid
`ErrorType`-deriving type — and two distinct calls (distinct type-object
allocations) yield distinct types even with identical arguments. -/
theorem C8_to_error_distinct (i j : Nat) (n1 e1 n2 e2 : String) (h : i ≠ j) :
    "ErrorType" ∈ (to_error i n1 e1).bases ∧
    to_error i n1 e1 ≠ to_error j n2 e2 := by
  refine ⟨by simp [to_error], fun hEq => h ?_⟩
  exact congrArg ErrorKindType.typeId hEq

/-- C8 witness: two calls with identical arguments `("X", "bad thing")`,
at allocations 0 and 1, give distinct types. -/
theorem C8_to_error_distinct_witness :
    "ErrorType" ∈ (to_error 0 "X" "bad thing").bases ∧
    to_error 0 "X" "bad thing" ≠ to_error 1 "X" "bad thing" :=
  C8_to_error_distinct 0 1 "X" "bad thing" "X" "bad thing" (by decide)

/-- C9: `unwrap` on an outcome whose exact runtime type is neither
`ERROR` nor `OK` does not raise: it returns the instance's `value`
attribute, which for a bare `Result` is the class-level default `""`. -/
theorem C9_unwrap_non_error (r : Result)
    (h1 : r.cls ≠ PyClass.errorClass) (h2 : r.cls ≠ PyClass.okClass) :
    unwrap r = Except.ok r.value ∧
    unwrap Result.bare = Except.ok (PyVal.vstr "") := by
  refine ⟨?_, rfl⟩
  simp [unwrap, h1]

/-- C9 witness: the bare `Result` instance. -/
theorem C9_unwrap_non_error_witness :
    Result.bare.cls ≠ PyClass.errorClass ∧
    unwrap Result.bare = Except.ok (PyVal.vstr "") :=
  ⟨by decide, (C9_unwrap_non_error Result.bare (by decide) (by decide)).1⟩

/-- C10: variant dispatch compares the exact runtime type with `OK`: on
every instance whose exact class is not `OK` (a bare `Result`, an
instance of a proper subclass of `OK`, an `ERROR`), `match` invokes the
error handler on the `value` attribute and `is_ok` returns false. -/
theorem C10_dispatch_non_ok {R : Type} (r : Result) (f g : PyVal → R)
    (h : r.cls ≠ PyClass.okClass) :
    Result.«match» r f g = g r.value ∧ is_ok r = false := by
  refine ⟨?_, ?_⟩ <;> simp [Result.«match», is_ok, h]

/-- C10 witness: an instance of a proper subclass of `OK` holding the
value 5, with concrete handlers. -/
theorem C10_dispatch_non_ok_witness :
    (OKSub.init "MyOk" (PyVal.vint 5)).cls ≠ PyClass.okClass ∧
    Result.«match» (OKSub.init "MyOk" (PyVal.vint 5)) (fun _ => (0 : Nat)) (fun _ => 1) = 1 ∧
    is_ok (OKSub.init "MyOk" (PyVal.vint 5)) = false :=
  ⟨by decide,
   C10_dispatch_non_ok (OKSub.init "MyOk" (PyVal.vint 5)) (fun _ => (0 : Nat)) (fun _ => 1) (by decide)⟩
